import Mathlib

/-!
Shallow embedding of the receipt-scanner service (FastAPI app in `app/main.py`,
Redis worker in `worker.py`, services in `app/services/`).

Python strings are modelled as lists of character codes (`Str`).  External
SDK calls (Gemini LLM, Google Cloud Storage, Google Sheets, OpenCV) are
modelled as environment oracles: each run of a handler is a pure function of
the oracle outcomes, and emits a trace of observable events (storage upload,
OCR call, spreadsheet append).  Fallible Python code is embedded with
`Option` / `Except`; a `try/except` block is embedded by matching on the
`Except` value of its body.
-/

/-- Python strings, modelled as lists of character codes. -/
abbrev Str := List Nat

/-- The character codes of a Lean string literal (all strings in this code
base are ASCII). -/
def codes (s : String) : Str := s.data.map Char.toNat

/-- ASCII lower-casing of one character code; models Python `str.lower`
restricted to the ASCII range used by this code base. -/
def lowerCode (c : Nat) : Nat := if 65 ≤ c ∧ c ≤ 90 then c + 32 else c

/-- Python `s.lower()` (ASCII). -/
def pyLower (s : Str) : Str := s.map lowerCode

/-- Whether the first list is an initial segment of the second. -/
def startsW : Str → Str → Bool
  | [], _ => true
  | _ :: _, [] => false
  | p :: ps, c :: cs => p == c && startsW ps cs

/-- Python substring test `pat in s`. -/
def hasSub (pat : Str) : Str → Bool
  | [] => startsW pat []
  | c :: cs => startsW pat (c :: cs) || hasSub pat cs

/-- Whitespace character codes removed by Python `str.strip`. -/
def isSpaceCode (c : Nat) : Bool :=
  c == 32 || c == 9 || c == 10 || c == 13 || c == 11 || c == 12

/-- Python `s.strip()`. -/
def pyStrip (s : Str) : Str :=
  ((s.dropWhile isSpaceCode).reverse.dropWhile isSpaceCode).reverse

/-- Fuel-driven scanner behind `replaceAll`; the fuel bounds the number of
scanning steps (one per list position, so `s.length` fuel is enough). -/
def replaceAllAux (pat rep : Str) : Nat → Str → Str
  | _, [] => []
  | 0, s => s
  | fuel + 1, c :: cs =>
    if !pat.isEmpty && startsW pat (c :: cs) then
      rep ++ replaceAllAux pat rep fuel (cs.drop (pat.length - 1))
    else
      c :: replaceAllAux pat rep fuel cs

/-- Python `s.replace(pat, rep)`: replace every non-overlapping occurrence,
left to right. -/
def replaceAll (pat rep : Str) (s : Str) : Str :=
  replaceAllAux pat rep s.length s

/-- The response clean-up in `OCRService.parse_image`:
`response.text.strip().replace('```json', '').replace('```', '')`. -/
def cleanResponse (text : Str) : Str :=
  replaceAll (codes "```") [] (replaceAll (codes "```json") [] (pyStrip text))

/-! ### Data model (`app/models.py`) -/

/-- `LineItem` from `app/models.py`.  Python floats are modelled as rationals
(the claims under study only test them for `None` / zero, where `ℚ` and IEEE
floats agree on the values this program manipulates). -/
structure LineItem where
  description : Str
  quantity : Option ℚ := none
  unit_price : Option ℚ := none
  total : Option ℚ := none
deriving DecidableEq

/-- `Receipt` from `app/models.py`.  `datetime` values are modelled by their
rendered form (`date` holds what `strftime` would produce; `created_at` is an
opaque timestamp string). -/
structure Receipt where
  vendor_name : Str
  total : ℚ
  date : Option Str := none
  vendor_address : Option Str := none
  receipt_number : Option Str := none
  subtotal : Option ℚ := none
  tax : Option ℚ := none
  payment_method : Option Str := none
  items : List LineItem := []
  voice_note : Option Str := none
  batch_id : Option Str := none
  created_at : Str := []
  image_url : Option Str := none
  item_summary : Option Str := none
  primary_category : Option Str := none
  actionable_flag : Bool := false
deriving DecidableEq

/-! ### Python truthiness -/

/-- Python truthiness of a string: non-empty. -/
def truthyStr (s : Str) : Bool := !s.isEmpty

/-- Python truthiness of an optional string (`None` and `''` are falsy). -/
def truthyOptStr : Option Str → Bool
  | none => false
  | some s => truthyStr s

/-- Python truthiness of an optional float (`None`, `0` and `-0.0` are
falsy; `-0.0 == 0` holds in `ℚ` as in Python). -/
def truthyOptQ : Option ℚ → Bool
  | none => false
  | some q => q != 0

/-! ### `SheetsService` (`app/services/sheets.py`) -/

/-- Keywords of the `'Groceries'` entry of the category table in
`SheetsService._categorize_vendor`. -/
def grocKeywords : List Str :=
  [codes "walmart", codes "kroger", codes "whole foods", codes "safeway", codes "costco"]

/-- Keywords of the `'Restaurants'` entry of the category table. -/
def restKeywords : List Str :=
  [codes "mcdonalds", codes "starbucks", codes "subway", codes "taco bell", codes "chipotle"]

/-- Keywords of the `'Gas/Fuel'` entry of the category table. -/
def gasKeywords : List Str :=
  [codes "shell", codes "exxon", codes "chevron", codes "bp", codes "76"]

/-- Keywords of the `'Shopping'` entry of the category table. -/
def shopKeywords : List Str :=
  [codes "amazon", codes "target", codes "best buy", codes "home depot"]

/-- All keywords of the table, in iteration order. -/
def allKeywords : List Str :=
  grocKeywords ++ restKeywords ++ gasKeywords ++ shopKeywords

/-- `SheetsService._categorize_vendor`: lower-case the vendor name, walk the
category table in insertion order (Python dicts preserve it) and return the
first category one of whose keywords occurs as a substring; `'Other'` when
none does.  The `for` loop over the literal dict is unrolled. -/
def _categorize_vendor (vendor_name : Str) : Str :=
  let vendor_lower := pyLower vendor_name
  if grocKeywords.any (fun kw => hasSub kw vendor_lower) then codes "Groceries"
  else if restKeywords.any (fun kw => hasSub kw vendor_lower) then codes "Restaurants"
  else if gasKeywords.any (fun kw => hasSub kw vendor_lower) then codes "Gas/Fuel"
  else if shopKeywords.any (fun kw => hasSub kw vendor_lower) then codes "Shopping"
  else codes "Other"

/-- The guard of the list comprehension building `items_str` in
`SheetsService.append_receipt`:
`if item.description and item.quantity and item.unit_price`. -/
def includedItem (it : LineItem) : Bool :=
  truthyStr it.description && truthyOptQ it.quantity && truthyOptQ it.unit_price

/-- The f-string for one line item,
`f"{item.description} ({item.quantity} @ ${item.unit_price:.2f})"`.
`fq` and `fp` are the (abstract) Python renderings of the two floats. -/
def itemEntry (fq fp : Option ℚ → Str) (it : LineItem) : Str :=
  it.description ++ codes " (" ++ fq it.quantity ++ codes " @ $" ++
    fp it.unit_price ++ codes ")"

/-- Python `'; '.join`. -/
def joinSemi : List Str → Str
  | [] => []
  | [x] => x
  | x :: xs => x ++ codes "; " ++ joinSemi xs

/-- The `items_str` computed in `SheetsService.append_receipt`: render each
line item that passes the truthiness guard, join with `'; '`. -/
def items_str (fq fp : Option ℚ → Str) (items : List LineItem) : Str :=
  joinSemi ((items.filter includedItem).map (itemEntry fq fp))

/-- A spreadsheet cell, as passed to `sheet.append_row`. -/
inductive Cell where
  | s (v : Str)
  | os (v : Option Str)
  | q (v : ℚ)
  | oq (v : Option ℚ)
deriving DecidableEq

/-- `date_str` in `SheetsService.append_receipt`:
`receipt.date.strftime('%Y-%m-%d') if receipt.date else ''` (the rendered
date is carried directly by the model). -/
def date_str (r : Receipt) : Str :=
  match r.date with
  | some d => d
  | none => []

/-- `row_data` in `SheetsService.append_receipt`: the twelve cells appended
to the sheet, in order.  `now` is the rendering of `datetime.now()`. -/
def row_data (fq fp : Option ℚ → Str) (now : Str) (receipt : Receipt) : List Cell :=
  [ Cell.s (date_str receipt),
    Cell.s receipt.vendor_name,
    Cell.s (_categorize_vendor receipt.vendor_name),
    Cell.q receipt.total,
    Cell.oq receipt.subtotal,
    Cell.oq receipt.tax,
    Cell.os receipt.payment_method,
    Cell.os receipt.voice_note,
    Cell.s (items_str fq fp receipt.items),
    Cell.os receipt.receipt_number,
    Cell.os receipt.image_url,
    Cell.s now ]

example : _categorize_vendor (codes "Walmart Supercenter") = codes "Groceries" := by decide
example : _categorize_vendor (codes "Groceries") = codes "Other" := by decide
example : _categorize_vendor (codes "Chevron #42") = codes "Gas/Fuel" := by decide

/-! ### Observable events

Each run of a handler or job emits the externally observable calls it makes,
in program order. -/

/-- Observable external effects of a run. -/
inductive Ev where
  /-- `StorageService.upload_file` returned `url` for a blob with these bytes. -/
  | store (bytes url : Str)
  /-- `StorageService.upload_file` raised. -/
  | storeFail (bytes : Str)
  /-- A job was handed to a background task queue (never emitted by this
  revision: `/upload` does all work in the request). -/
  | dispatch
  /-- The Gemini OCR call was made on these image bytes. -/
  | parseCall (input : Str)
  /-- `SheetsService.append_receipt` was invoked with this receipt. -/
  | appendCall (receipt : Receipt)
  /-- The header row was appended to an empty sheet. -/
  | appendHeader
  /-- `sheet.append_row(row_data)` was attempted; `ok` is false when the
  underlying call raised (so no row was written). -/
  | append (row : List Cell) (ok : Bool)
deriving DecidableEq

/-- Oracle for one `SheetsService.append_receipt` call: outcomes of the
Google Sheets SDK calls, the wall clock, and the float renderings used in
the row. -/
structure SheetsEnv where
  /-- `open_by_url(...).sheet1` and `get_all_records()` succeed. -/
  sheetOk : Bool
  /-- `get_all_records()` returned no records (header row gets added). -/
  sheetEmpty : Bool
  /-- `sheet.append_row(row_data)` succeeds. -/
  rowOk : Bool
  /-- Rendering of `datetime.now().strftime('%Y-%m-%d %H:%M:%S')`. -/
  now : Str
  /-- Rendering of `f"{item.quantity}"`. -/
  fq : Option ℚ → Str
  /-- Rendering of `f"${item.unit_price:.2f}"`. -/
  fp : Option ℚ → Str

/-- `SheetsService.append_receipt`: open the sheet, add a header row when the
sheet is empty, append the receipt row; returns `True` on success.  Every
exception is caught and turned into a `False` return. -/
def append_receipt (env : SheetsEnv) (receipt : Receipt) : Bool × List Ev :=
  if !env.sheetOk then
    (false, [Ev.appendCall receipt])
  else
    let headerEvs := if env.sheetEmpty then [Ev.appendHeader] else []
    let row := row_data env.fq env.fp env.now receipt
    if env.rowOk then
      (true, Ev.appendCall receipt :: headerEvs ++ [Ev.append row true])
    else
      (false, Ev.appendCall receipt :: headerEvs ++ [Ev.append row false])

/-! ### `OCRService` (`app/services/ocr_llm.py`) -/

/-- Oracle for `OCRService`: outcomes of the OpenCV preprocessing and the
Gemini / Pydantic calls. -/
structure OCREnv where
  /-- The cv2 read/threshold/write pipeline succeeds. -/
  ppOk : Bool
  /-- Bytes of the preprocessed (grayscale, thresholded) image. -/
  pp : Str → Str
  /-- `model.generate_content`: the response text, or an exception. -/
  llm : Str → Except Unit Str
  /-- `Receipt.model_validate_json` on the cleaned response text. -/
  validate : Str → Except Unit Receipt

/-- `OCRService._preprocess_image`: on any cv2 error the exception is caught
and the original image is used instead. -/
def _preprocess_image (env : OCREnv) (img : Str) : Str :=
  if env.ppOk then env.pp img else img

/-- `OCRService.parse_image`: preprocess, call Gemini, clean the markdown
fences off the response, validate as a `Receipt`.  Any exception inside the
`try` block is caught and turned into a `None` return. -/
def parse_image (env : OCREnv) (img : Str) : Option Receipt :=
  let processed := _preprocess_image env img
  match env.llm processed with
  | Except.error _ => none
  | Except.ok text =>
    match env.validate (cleanResponse text) with
    | Except.error _ => none
    | Except.ok receipt_data => some receipt_data

/-- Spec-side description of the failure modes inside the `try` block of
`parse_image`: the Gemini call raised, or the validation of the cleaned
response raised. -/
def llmOrValidateFails (env : OCREnv) (img : Str) : Bool :=
  match env.llm (_preprocess_image env img) with
  | Except.error _ => true
  | Except.ok t =>
    match env.validate (cleanResponse t) with
    | Except.error _ => true
    | Except.ok _ => false

/-! ### HTTP handlers (`app/main.py`) and worker (`worker.py`) -/

/-- The HTTP response of a handler run (after FastAPI turns any raised
`HTTPException` — including the re-wrapped ones of the outer
`except Exception` blocks — into an error response). -/
inductive Response where
  /-- The `UploadResponse` of `/upload`. -/
  | success (message : String) (receipt : Receipt)
  /-- The bare `Receipt` returned by `/parse`. -/
  | receiptOnly (receipt : Receipt)
  /-- An error response with this HTTP status. -/
  | error (status : Nat)
deriving DecidableEq

/-- Oracle for one `/upload` request. -/
structure UploadEnv where
  /-- `StorageService.upload_file`: the public URL, or an exception. -/
  uploadRes : Except Unit Str
  ocr : OCREnv
  sheets : SheetsEnv

/-- Lines 81–94 of `app/main.py` (the part of `upload_receipt` after the
storage upload): parse the saved image, attach `image_url` and, when truthy,
`voice_note`, call `append_receipt` (return value ignored), and build the
success response.  A `None` parse raises `HTTPException(500)`, which the
outer `except` re-wraps, still as a 500. -/
def syncParseTail (ocr : OCREnv) (sheets : SheetsEnv) (img url : Str)
    (voice_note : Option Str) : Response × List Ev :=
  match parse_image ocr img with
  | none => (Response.error 500, [Ev.parseCall (_preprocess_image ocr img)])
  | some receipt_data =>
    let r1 := { receipt_data with image_url := some url }
    let r2 := if truthyOptStr voice_note then { r1 with voice_note := voice_note } else r1
    let res := append_receipt sheets r2
    (Response.success "Receipt processed and uploaded successfully." r2,
      Ev.parseCall (_preprocess_image ocr img) :: res.2)

/-- `upload_receipt` (`POST /upload`): save the upload to a temp file, upload
the raw bytes to GCS, then parse and append synchronously.  A falsy
(empty) public URL or any exception yields a 500. -/
def upload_receipt (env : UploadEnv) (raw : Str) (voice_note : Option Str) :
    Response × List Ev :=
  match env.uploadRes with
  | Except.error _ => (Response.error 500, [Ev.storeFail raw])
  | Except.ok image_url =>
    if !truthyStr image_url then
      (Response.error 500, [Ev.store raw image_url])
    else
      let res := syncParseTail env.ocr env.sheets raw image_url voice_note
      (res.1, Ev.store raw image_url :: res.2)

/-- `parse_receipt_only` (`POST /parse`): parse the saved image and return
the structured data; a `None` parse yields a 500. -/
def parse_receipt_only (ocr : OCREnv) (raw : Str) : Response × List Ev :=
  match parse_image ocr raw with
  | none => (Response.error 500, [Ev.parseCall (_preprocess_image ocr raw)])
  | some receipt_data =>
    (Response.receiptOnly receipt_data, [Ev.parseCall (_preprocess_image ocr raw)])

/-- How a queue job run ends, as seen by the queue. -/
inductive JobOutcome where
  /-- The job function returned normally. -/
  | completed
  /-- The job function raised (only this would mark the job failed). -/
  | raised
deriving DecidableEq

/-- Oracle for one `process_receipt_job` run. -/
structure WorkerEnv where
  /-- `requests.get(image_url)` and `raise_for_status` succeed. -/
  downloadOk : Bool
  /-- The blob bytes served at the image URL. -/
  blob : Str
  ocr : OCREnv
  sheets : SheetsEnv

/-- Lines 41–68 of `worker.py` (the part of `process_receipt_job` after the
download): parse the downloaded image, attach `image_url` and, when truthy,
`voice_note`, call `append_receipt` (return value ignored).  A `None` parse
raises, which the job's own `except` catches.  The boolean tells whether the
body ran to completion without raising. -/
def workerParseTail (ocr : OCREnv) (sheets : SheetsEnv) (img url : Str)
    (voice_note : Option Str) : Bool × List Ev :=
  match parse_image ocr img with
  | none => (false, [Ev.parseCall (_preprocess_image ocr img)])
  | some receipt_data =>
    let r1 := { receipt_data with image_url := some url }
    let r2 := if truthyOptStr voice_note then { r1 with voice_note := voice_note } else r1
    let res := append_receipt sheets r2
    (true, Ev.parseCall (_preprocess_image ocr img) :: res.2)

/-- `process_receipt_job` (`worker.py`): download the stored image, parse it,
append the row.  The whole body sits in a `try` whose `except Exception`
only prints, so the job always returns normally to the queue. -/
def process_receipt_job (env : WorkerEnv) (image_url : Str)
    (voice_note : Option Str) : JobOutcome × List Ev :=
  if !env.downloadOk then
    (JobOutcome.completed, [])
  else
    let res := workerParseTail env.ocr env.sheets env.blob image_url voice_note
    (JobOutcome.completed, res.2)

/-! ### Concrete fixtures for witnesses and counterexamples -/

/-- A concrete parsed receipt, as the LLM would return it. -/
def r0 : Receipt := { vendor_name := codes "Walmart", total := 5 }

/-- Concrete raw bytes of an uploaded image. -/
def raw0 : Str := codes "JPEGDATA"

/-- Concrete public URL returned by the storage upload. -/
def url0 : Str := codes "https://storage.example/receipts/2025/x.jpg"

/-- OCR oracle in which every external call succeeds and preprocessing
produces different bytes. -/
def okOCR : OCREnv :=
  { ppOk := true
    pp := fun b => codes "bw:" ++ b
    llm := fun _ => Except.ok (codes "```json{}```")
    validate := fun _ => Except.ok r0 }

/-- OCR oracle whose Gemini call raises. -/
def llmFailOCR : OCREnv := { okOCR with llm := fun _ => Except.error () }

/-- OCR oracle whose cv2 preprocessing raises but whose remaining calls
succeed. -/
def ppFailOCR : OCREnv := { okOCR with ppOk := false }

/-- Sheets oracle in which every Google Sheets call succeeds. -/
def okSheets : SheetsEnv :=
  { sheetOk := true
    sheetEmpty := false
    rowOk := true
    now := codes "2025-01-01 00:00:00"
    fq := fun _ => codes "1.0"
    fp := fun _ => codes "1.00" }

/-- Sheets oracle in which `sheet.append_row` raises. -/
def rowFailSheets : SheetsEnv := { okSheets with rowOk := false }

/-- Upload oracle in which every external call succeeds. -/
def okUpload : UploadEnv :=
  { uploadRes := Except.ok url0, ocr := okOCR, sheets := okSheets }

/-- Upload oracle in which the row append fails and everything else
succeeds. -/
def rowFailUpload : UploadEnv := { okUpload with sheets := rowFailSheets }

/-- Upload oracle in which the Gemini call fails and everything else
succeeds. -/
def llmFailUpload : UploadEnv := { okUpload with ocr := llmFailOCR }

/-- `r0` after the handler attached the storage URL. -/
def r0u : Receipt := { r0 with image_url := some url0 }

/-- The spreadsheet row the fixtures produce for `r0u`. -/
def row0 : List Cell := row_data okSheets.fq okSheets.fp okSheets.now r0u

/-- Worker oracle: download succeeds on blob `raw0`, Gemini call fails. -/
def workerLLMFail : WorkerEnv :=
  { downloadOk := true, blob := raw0, ocr := llmFailOCR, sheets := okSheets }

/-- OCR oracle in which both the cv2 preprocessing and the Gemini call
raise. -/
def ppLlmFailOCR : OCREnv := { llmFailOCR with ppOk := false }

/-- Upload oracle built on `ppLlmFailOCR`, everything else succeeding. -/
def ppLlmFailUpload : UploadEnv := { okUpload with ocr := ppLlmFailOCR }

/-- Recognizer for OCR-call events, used to count OCR attempts in a trace. -/
def isParseEv : Ev → Bool
  | Ev.parseCall _ => true
  | _ => false

example :
    upload_receipt okUpload raw0 none =
      (Response.success "Receipt processed and uploaded successfully." r0u,
        [Ev.store raw0 url0, Ev.parseCall (codes "bw:" ++ raw0),
          Ev.appendCall r0u, Ev.append row0 true]) := by decide

/-! ## Helper lemmas -/

/-- ASCII lower-casing is idempotent on one character code. -/
theorem lowerCode_idem (c : Nat) : lowerCode (lowerCode c) = lowerCode c := by
  by_cases h : 65 ≤ c ∧ c ≤ 90
  · simp only [lowerCode, if_pos h]
    rw [if_neg (by omega)]
  · simp only [lowerCode, if_neg h]

/-- Python `lower` (ASCII model) is idempotent. -/
theorem pyLower_idem (s : Str) : pyLower (pyLower s) = pyLower s := by
  simp only [pyLower, List.map_map]
  exact List.map_congr_left fun c _ => lowerCode_idem c

/-- `_categorize_vendor` always lands in the five-element category set. -/
theorem categorize_mem (v : Str) :
    _categorize_vendor v = codes "Groceries" ∨
    _categorize_vendor v = codes "Restaurants" ∨
    _categorize_vendor v = codes "Gas/Fuel" ∨
    _categorize_vendor v = codes "Shopping" ∨
    _categorize_vendor v = codes "Other" := by
  simp only [_categorize_vendor]
  repeat' split
  · exact Or.inl rfl
  · exact Or.inr (Or.inl rfl)
  · exact Or.inr (Or.inr (Or.inl rfl))
  · exact Or.inr (Or.inr (Or.inr (Or.inl rfl)))
  · exact Or.inr (Or.inr (Or.inr (Or.inr rfl)))

/-- `_categorize_vendor` only looks at the lower-cased vendor name. -/
theorem categorize_lower (v : Str) :
    _categorize_vendor (pyLower v) = _categorize_vendor v := by
  simp only [_categorize_vendor, pyLower_idem]

/-- `_categorize_vendor` answers `'Other'` exactly when none of the four
keyword lists matches the lower-cased vendor name. -/
theorem categorize_other_iff_anys (v : Str) :
    _categorize_vendor v = codes "Other" ↔
      (grocKeywords.any (fun kw => hasSub kw (pyLower v)) = false ∧
       restKeywords.any (fun kw => hasSub kw (pyLower v)) = false ∧
       gasKeywords.any (fun kw => hasSub kw (pyLower v)) = false ∧
       shopKeywords.any (fun kw => hasSub kw (pyLower v)) = false) := by
  simp only [_categorize_vendor]
  by_cases h1 : grocKeywords.any (fun kw => hasSub kw (pyLower v)) = true
  · simp [h1, (by decide : codes "Groceries" ≠ codes "Other")]
  · by_cases h2 : restKeywords.any (fun kw => hasSub kw (pyLower v)) = true
    · simp [h1, h2, (by decide : codes "Restaurants" ≠ codes "Other")]
    · by_cases h3 : gasKeywords.any (fun kw => hasSub kw (pyLower v)) = true
      · simp [h1, h2, h3, (by decide : codes "Gas/Fuel" ≠ codes "Other")]
      · by_cases h4 : shopKeywords.any (fun kw => hasSub kw (pyLower v)) = true
        · simp [h1, h2, h3, h4, (by decide : codes "Shopping" ≠ codes "Other")]
        · simp [h1, h2, h3, h4]

/-- `_categorize_vendor` answers `'Other'` exactly when no keyword of the
table occurs in the lower-cased vendor name. -/
theorem categorize_other_iff (v : Str) :
    _categorize_vendor v = codes "Other" ↔
      ∀ kw ∈ allKeywords, hasSub kw (pyLower v) = false := by
  rw [categorize_other_iff_anys]
  constructor
  · rintro ⟨hh1, hh2, hh3, hh4⟩ kw hkw
    simp only [allKeywords, List.mem_append] at hkw
    rcases hkw with ((h | h) | h) | h
    · simpa using List.any_eq_false.mp hh1 kw h
    · simpa using List.any_eq_false.mp hh2 kw h
    · simpa using List.any_eq_false.mp hh3 kw h
    · simpa using List.any_eq_false.mp hh4 kw h
  · intro hall
    refine ⟨?_, ?_, ?_, ?_⟩ <;>
      · rw [List.any_eq_false]
        intro kw hkw
        have hm : kw ∈ allKeywords := by
          simp only [allKeywords, List.mem_append]
          tauto
        simp [hall kw hm]

/-- The comprehension guard of `append_receipt` is Python truthiness of the
three fields: it equals the explicit condition "description non-empty and
quantity and unit price both present and non-zero". -/
theorem includedItem_iff (it : LineItem) :
    includedItem it = decide (it.description ≠ [] ∧
      it.quantity ≠ none ∧ it.quantity ≠ some 0 ∧
      it.unit_price ≠ none ∧ it.unit_price ≠ some 0) := by
  have hbeq : ∀ x y : ℚ, (x == y) = decide (x = y) := by
    intro x y
    by_cases h : x = y <;> simp [h]
  rcases it with ⟨d, q, p, t⟩
  simp only [includedItem, truthyStr, truthyOptQ]
  cases d <;> cases q <;> cases p <;> simp [bne, hbeq]

/-- `append_receipt` always records its invocation for the given receipt. -/
theorem appendCall_mem (sheets : SheetsEnv) (r : Receipt) :
    Ev.appendCall r ∈ (append_receipt sheets r).2 := by
  simp only [append_receipt]
  split_ifs <;> simp

/-- A trace of `append_receipt` contains no storage-upload event. -/
theorem store_not_mem_append (sheets : SheetsEnv) (r : Receipt) (b u : Str) :
    Ev.store b u ∉ (append_receipt sheets r).2 := by
  simp only [append_receipt]
  split_ifs <;> simp

/-- A trace of `append_receipt` contains no OCR-call event. -/
theorem parseCall_not_mem_append (sheets : SheetsEnv) (r : Receipt) (i : Str) :
    Ev.parseCall i ∉ (append_receipt sheets r).2 := by
  simp only [append_receipt]
  split_ifs <;> simp

/-- A trace of `append_receipt` contains no dispatch event. -/
theorem dispatch_not_mem_append (sheets : SheetsEnv) (r : Receipt) :
    Ev.dispatch ∉ (append_receipt sheets r).2 := by
  simp only [append_receipt]
  split_ifs <;> simp

/-- A trace of `append_receipt` contains at most zero OCR calls. -/
theorem append_trace_no_parse (sheets : SheetsEnv) (r : Receipt) :
    (append_receipt sheets r).2.countP isParseEv = 0 := by
  simp only [append_receipt]
  split_ifs <;> simp [isParseEv]

/-! ## Claim theorems -/

/-- Claim C9 (confirmed): `_categorize_vendor` is total (by construction in
this embedding), case-insensitive (it agrees with itself on the lower-cased
vendor name), always returns one of the five category strings, and returns
`'Other'` exactly when no keyword of the table occurs as a substring of the
lower-cased vendor name. -/
theorem c9_categorize_spec (v : Str) :
    _categorize_vendor v = _categorize_vendor (pyLower v) ∧
    (_categorize_vendor v = codes "Groceries" ∨
     _categorize_vendor v = codes "Restaurants" ∨
     _categorize_vendor v = codes "Gas/Fuel" ∨
     _categorize_vendor v = codes "Shopping" ∨
     _categorize_vendor v = codes "Other") ∧
    (_categorize_vendor v = codes "Other" ↔
      ∀ kw ∈ allKeywords, hasSub kw (pyLower v) = false) :=
  ⟨(categorize_lower v).symm, categorize_mem v, categorize_other_iff v⟩

/-- Claim C1, counterexample: a run in which storage and parsing succeed but
`sheet.append_row` raises (`append_receipt` returns `False`, which the
handler ignores) still responds with the success message — the trace ends
with a failed append, no row was recorded. -/
theorem c1_success_despite_append_failure :
    upload_receipt rowFailUpload raw0 none =
      (Response.success "Receipt processed and uploaded successfully." r0u,
        [Ev.store raw0 url0, Ev.parseCall (codes "bw:" ++ raw0),
          Ev.appendCall r0u, Ev.append row0 false]) := by decide

/-- Claim C1 (corrected): the success acknowledgment only implies that
`append_receipt` was invoked with the extracted receipt, not that the
append succeeded — `append_receipt` swallows its exceptions into a `False`
return which `upload_receipt` discards. -/
theorem c1_success_implies_append_invoked (env : UploadEnv) (raw : Str)
    (vn : Option Str) (m : String) (r : Receipt)
    (h : (upload_receipt env raw vn).1 = Response.success m r) :
    Ev.appendCall r ∈ (upload_receipt env raw vn).2 := by
  cases hu : env.uploadRes with
  | error e => simp [upload_receipt, hu] at h
  | ok url =>
    by_cases ht : truthyStr url = true
    · cases hp : parse_image env.ocr raw with
      | none => simp [upload_receipt, hu, ht, syncParseTail, hp] at h
      | some rd =>
        simp only [upload_receipt, hu, ht, syncParseTail, hp] at h ⊢
        simp only [Bool.not_true, Bool.false_eq_true, if_false] at h ⊢
        simp only [Response.success.injEq] at h
        obtain ⟨hm, hr⟩ := h
        subst hr
        simp [List.mem_cons, appendCall_mem]
    · simp [upload_receipt, hu, ht] at h

/-- Claim C1 witness: in the all-success run the acknowledgment is the
success message and `append_receipt` was invoked with the final receipt. -/
theorem c1_success_implies_append_invoked_witness :
    (upload_receipt okUpload raw0 none).1 =
      Response.success "Receipt processed and uploaded successfully." r0u ∧
    Ev.appendCall r0u ∈ (upload_receipt okUpload raw0 none).2 :=
  ⟨by decide, c1_success_implies_append_invoked okUpload raw0 none
    "Receipt processed and uploaded successfully." r0u (by decide)⟩

/-- Claim C4, counterexample: a job whose Gemini call fails makes exactly
one OCR attempt and still reports normal completion to the queue (its
`except` block swallows the error), so nothing triggers a second attempt:
the job is silently dropped after a single failed OCR call. -/
theorem c4_ocr_failure_single_attempt :
    process_receipt_job workerLLMFail url0 none =
      (JobOutcome.completed, [Ev.parseCall (codes "bw:" ++ raw0)]) ∧
    (process_receipt_job workerLLMFail url0 none).2.countP isParseEv = 1 := by
  constructor <;> decide

/-- Claim C4 (corrected): `process_receipt_job` always returns normally to
the queue (every exception is caught and only printed) and makes at most one
OCR attempt per run; no retry of the OCR call ever happens. -/
theorem c4_job_completes_no_retry (env : WorkerEnv) (url : Str)
    (vn : Option Str) :
    (process_receipt_job env url vn).1 = JobOutcome.completed ∧
    (process_receipt_job env url vn).2.countP isParseEv ≤ 1 := by
  constructor
  · by_cases hd : env.downloadOk = true <;> simp [process_receipt_job, hd]
  · by_cases hd : env.downloadOk = true
    · cases hp : parse_image env.ocr env.blob with
      | none =>
        simp [process_receipt_job, hd, workerParseTail, hp, isParseEv,
          List.countP_cons]
      | some rd =>
        simp [process_receipt_job, hd, workerParseTail, hp, isParseEv,
          List.countP_cons, append_trace_no_parse]
    · simp [process_receipt_job, hd]

/-- Claim C8, counterexample: when the cv2 preprocessing raises,
`parse_image` does not return `None` — it falls back to the original image
and here the downstream calls succeed, so it returns a parsed receipt. -/
theorem c8_preprocess_error_still_parses :
    ppFailOCR.ppOk = false ∧ parse_image ppFailOCR raw0 = some r0 :=
  ⟨rfl, by decide⟩

/-- Claim C8 (corrected): `parse_image` never propagates an exception; a
preprocessing error falls back to the original image (parsing proceeds and
may succeed), a Gemini-call or JSON/model-validation error yields `None`
(and nothing else does), and both endpoints turn a `None` parse into a 500
error response. -/
theorem c8_parse_error_handling (env : OCREnv) (img : Str)
    (upEnv : UploadEnv) (vn : Option Str) :
    (parse_image env img = none ↔ llmOrValidateFails env img = true) ∧
    (env.ppOk = false → _preprocess_image env img = img) ∧
    (parse_image env img = none →
      (parse_receipt_only env img).1 = Response.error 500) ∧
    (parse_image upEnv.ocr img = none →
      (upload_receipt upEnv img vn).1 = Response.error 500) := by
  refine ⟨?_, ?_, ?_, ?_⟩
  · cases hl : env.llm (_preprocess_image env img) with
    | error e => simp [parse_image, llmOrValidateFails, hl]
    | ok t =>
      cases hv : env.validate (cleanResponse t) with
      | error e2 => simp [parse_image, llmOrValidateFails, hl, hv]
      | ok rd => simp [parse_image, llmOrValidateFails, hl, hv]
  · intro hpp
    simp [_preprocess_image, hpp]
  · intro hn
    simp [parse_receipt_only, hn]
  · intro hn
    cases hu : upEnv.uploadRes with
    | error e => simp [upload_receipt, hu]
    | ok url =>
      by_cases ht : truthyStr url = true
      · simp [upload_receipt, hu, ht, syncParseTail, hn]
      · simp [upload_receipt, hu, ht]

/-- Claim C8 witness: with preprocessing and the Gemini call both failing,
the fallback path is taken, the parse returns `None`, and both endpoints
answer 500. -/
theorem c8_parse_error_handling_witness :
    _preprocess_image ppLlmFailOCR raw0 = raw0 ∧
    (parse_receipt_only ppLlmFailOCR raw0).1 = Response.error 500 ∧
    (upload_receipt ppLlmFailUpload raw0 none).1 = Response.error 500 :=
  ⟨(c8_parse_error_handling ppLlmFailOCR raw0 ppLlmFailUpload none).2.1 rfl,
   (c8_parse_error_handling ppLlmFailOCR raw0 ppLlmFailUpload none).2.2.1 (by decide),
   (c8_parse_error_handling ppLlmFailOCR raw0 ppLlmFailUpload none).2.2.2 (by decide)⟩

/-- Claim C5, counterexample: categorization is not idempotent.  `'Walmart'`
is categorized as `'Groceries'`, but `'Groceries'` itself is categorized as
`'Other'` (no keyword occurs in it), so applying `_categorize_vendor` to its
own output changes the result. -/
theorem c5_categorize_not_idempotent :
    _categorize_vendor (_categorize_vendor (codes "Walmart")) ≠
      _categorize_vendor (codes "Walmart") := by decide

/-- Claim C5 (corrected): applying `_categorize_vendor` to its own output
always yields `'Other'`, because no category name contains a keyword of the
table; hence the composition is idempotent only at vendors categorized as
`'Other'`. -/
theorem c5_categorize_twice_other (v : Str) :
    _categorize_vendor (_categorize_vendor v) = codes "Other" := by
  rcases categorize_mem v with h | h | h | h | h <;> rw [h] <;> decide

/-- Claim C2 (confirmed): whenever a spreadsheet-row append appears in a
run of `/upload`, the storage upload succeeded first (with a truthy URL),
the parse succeeded, and the trace is exactly "store, then OCR call, then
sheet events": the append can only come after a successful store and parse.
In this synchronous backend the dispatch step is the direct invocation of
the parse work. -/
theorem c2_pipeline_order (env : UploadEnv) (raw : Str) (vn : Option Str)
    (row : List Cell) (ok : Bool)
    (h : Ev.append row ok ∈ (upload_receipt env raw vn).2) :
    ∃ url r rest,
      env.uploadRes = Except.ok url ∧ truthyStr url = true ∧
      parse_image env.ocr raw = some r ∧
      (upload_receipt env raw vn).2 =
        Ev.store raw url :: Ev.parseCall (_preprocess_image env.ocr raw) :: rest ∧
      Ev.append row ok ∈ rest := by
  cases hu : env.uploadRes with
  | error e => simp [upload_receipt, hu] at h
  | ok url =>
    by_cases ht : truthyStr url = true
    · cases hp : parse_image env.ocr raw with
      | none => simp [upload_receipt, hu, ht, syncParseTail, hp] at h
      | some rd =>
        have htr : (upload_receipt env raw vn).2 =
            Ev.store raw url :: Ev.parseCall (_preprocess_image env.ocr raw) ::
              (append_receipt env.sheets (if truthyOptStr vn then
                { { rd with image_url := some url } with voice_note := vn }
              else { rd with image_url := some url })).2 := by
          simp [upload_receipt, hu, ht, syncParseTail, hp]
        rw [htr] at h
        simp only [List.mem_cons] at h
        rcases h with h | h | h
        · exact absurd h (by simp)
        · exact absurd h (by simp)
        · exact ⟨url, rd, _, rfl, ht, rfl, htr, h⟩
    · simp [upload_receipt, hu, ht] at h

/-- Claim C2 witness: the all-success run appends `row0`, and the theorem
recovers the successful store, the successful parse and the ordered trace. -/
theorem c2_pipeline_order_witness :
    Ev.append row0 true ∈ (upload_receipt okUpload raw0 none).2 ∧
    (∃ url r rest,
      okUpload.uploadRes = Except.ok url ∧ truthyStr url = true ∧
      parse_image okUpload.ocr raw0 = some r ∧
      (upload_receipt okUpload raw0 none).2 =
        Ev.store raw0 url :: Ev.parseCall (_preprocess_image okUpload.ocr raw0) :: rest ∧
      Ev.append row0 true ∈ rest) :=
  ⟨by decide, c2_pipeline_order okUpload raw0 none row0 true (by decide)⟩

/-- Claim C3, counterexample: the `/upload` acknowledgment is not decoupled
from the parse-and-record work.  Two runs differing only in the Gemini
outcome get different responses (so the response waits on the parse), and
the successful acknowledgment is produced in the same run after the OCR
call and the row append already happened. -/
theorem c3_response_waits_for_parse_and_append :
    (upload_receipt okUpload raw0 none).1 ≠
      (upload_receipt llmFailUpload raw0 none).1 ∧
    upload_receipt okUpload raw0 none =
      (Response.success "Receipt processed and uploaded successfully." r0u,
        [Ev.store raw0 url0, Ev.parseCall (codes "bw:" ++ raw0),
          Ev.appendCall r0u, Ev.append row0 true]) := by
  constructor <;> decide

/-- Claim C3 (corrected): in this revision `/upload` performs the parse and
the append synchronously inside the request: no task is ever dispatched to a
queue, and a success acknowledgment is only returned in a run that already
made the OCR call and invoked `append_receipt` (`worker.py`'s job function
exists but `/upload` never enqueues to it). -/
theorem c3_sync_no_dispatch (env : UploadEnv) (raw : Str) (vn : Option Str) :
    Ev.dispatch ∉ (upload_receipt env raw vn).2 ∧
    (∀ m r, (upload_receipt env raw vn).1 = Response.success m r →
      Ev.parseCall (_preprocess_image env.ocr raw) ∈ (upload_receipt env raw vn).2 ∧
      Ev.appendCall r ∈ (upload_receipt env raw vn).2) := by
  constructor
  · cases hu : env.uploadRes with
    | error e => simp [upload_receipt, hu]
    | ok url =>
      by_cases ht : truthyStr url = true
      · cases hp : parse_image env.ocr raw with
        | none => simp [upload_receipt, hu, ht, syncParseTail, hp]
        | some rd =>
          simp [upload_receipt, hu, ht, syncParseTail, hp,
            dispatch_not_mem_append]
      · simp [upload_receipt, hu, ht]
  · intro m r h
    cases hu : env.uploadRes with
    | error e => simp [upload_receipt, hu] at h
    | ok url =>
      by_cases ht : truthyStr url = true
      · cases hp : parse_image env.ocr raw with
        | none => simp [upload_receipt, hu, ht, syncParseTail, hp] at h
        | some rd =>
          simp only [upload_receipt, hu, ht, syncParseTail, hp] at h ⊢
          simp only [Bool.not_true, Bool.false_eq_true, if_false] at h ⊢
          simp only [Response.success.injEq] at h
          obtain ⟨hm, hr⟩ := h
          subst hr
          simp [List.mem_cons, appendCall_mem]
      · simp [upload_receipt, hu, ht] at h

/-- Claim C3 witness: the all-success run acknowledges success, and its own
trace already contains the OCR call and the `append_receipt` invocation. -/
theorem c3_sync_no_dispatch_witness :
    (upload_receipt okUpload raw0 none).1 =
      Response.success "Receipt processed and uploaded successfully." r0u ∧
    Ev.parseCall (_preprocess_image okUpload.ocr raw0) ∈
      (upload_receipt okUpload raw0 none).2 ∧
    Ev.appendCall r0u ∈ (upload_receipt okUpload raw0 none).2 :=
  ⟨by decide,
   ((c3_sync_no_dispatch okUpload raw0 none).2
     "Receipt processed and uploaded successfully." r0u (by decide)).1,
   ((c3_sync_no_dispatch okUpload raw0 none).2
     "Receipt processed and uploaded successfully." r0u (by decide)).2⟩

/-- Claim C6 (confirmed): every storage upload in a `/upload` run carries
exactly the raw bytes of the client upload, while every OCR call carries the
preprocessed variant — the preprocessed image is never what gets stored. -/
theorem c6_stored_image_raw (env : UploadEnv) (raw : Str) (vn : Option Str) :
    (∀ b u, Ev.store b u ∈ (upload_receipt env raw vn).2 → b = raw) ∧
    (∀ i, Ev.parseCall i ∈ (upload_receipt env raw vn).2 →
      i = _preprocess_image env.ocr raw) := by
  constructor
  · intro b u hb
    cases hu : env.uploadRes with
    | error e => simp [upload_receipt, hu] at hb
    | ok url =>
      by_cases ht : truthyStr url = true
      · cases hp : parse_image env.ocr raw with
        | none =>
          simp [upload_receipt, hu, ht, syncParseTail, hp] at hb
          exact hb.1
        | some rd =>
          simp [upload_receipt, hu, ht, syncParseTail, hp,
            store_not_mem_append] at hb
          exact hb.1
      · simp [upload_receipt, hu, ht] at hb
        exact hb.1
  · intro i hi
    cases hu : env.uploadRes with
    | error e => simp [upload_receipt, hu] at hi
    | ok url =>
      by_cases ht : truthyStr url = true
      · cases hp : parse_image env.ocr raw with
        | none =>
          simp [upload_receipt, hu, ht, syncParseTail, hp] at hi
          exact hi
        | some rd =>
          simp [upload_receipt, hu, ht, syncParseTail, hp,
            parseCall_not_mem_append] at hi
          exact hi
      · simp [upload_receipt, hu, ht] at hi

/-- Claim C6 witness: in the all-success run the stored bytes are the raw
upload, the OCR input is the preprocessed variant, and the two differ. -/
theorem c6_stored_image_raw_witness :
    raw0 = raw0 ∧
    codes "bw:" ++ raw0 = _preprocess_image okUpload.ocr raw0 ∧
    _preprocess_image okUpload.ocr raw0 ≠ raw0 :=
  ⟨(c6_stored_image_raw okUpload raw0 none).1 raw0 url0 (by decide),
   (c6_stored_image_raw okUpload raw0 none).2 (codes "bw:" ++ raw0) (by decide),
   by decide⟩

/-- Claim C7 (confirmed): given the same stored image bytes, URL, voice note
and external-service outcomes, the parse-and-append tail of the synchronous
`/upload` handler and of the worker job emit identical traces (same OCR
call, same receipt handed to `append_receipt`, same appended row), the
handler acknowledges success exactly when the worker body completes, and the
receipt in the success response is exactly the receipt the worker hands to
`append_receipt`. -/
theorem c7_sync_worker_agree (ocr : OCREnv) (sheets : SheetsEnv)
    (img url : Str) (vn : Option Str) :
    (syncParseTail ocr sheets img url vn).2 =
      (workerParseTail ocr sheets img url vn).2 ∧
    ((workerParseTail ocr sheets img url vn).1 = true ↔
      ∃ r, (syncParseTail ocr sheets img url vn).1 =
        Response.success "Receipt processed and uploaded successfully." r) ∧
    (∀ r, (syncParseTail ocr sheets img url vn).1 =
        Response.success "Receipt processed and uploaded successfully." r →
      Ev.appendCall r ∈ (workerParseTail ocr sheets img url vn).2) := by
  cases hp : parse_image ocr img with
  | none =>
    refine ⟨by simp [syncParseTail, workerParseTail, hp], ?_, ?_⟩
    · simp [syncParseTail, workerParseTail, hp]
    · intro r h
      simp [syncParseTail, hp] at h
  | some rd =>
    refine ⟨by simp [syncParseTail, workerParseTail, hp], ?_, ?_⟩
    · simp [syncParseTail, workerParseTail, hp]
    · intro r h
      simp only [syncParseTail, hp, Response.success.injEq] at h
      obtain ⟨hm, hr⟩ := h
      subst hr
      simp [workerParseTail, hp, List.mem_cons, appendCall_mem]

/-- Claim C7 witness: on the shared all-success fixtures the synchronous
tail acknowledges `r0u` and the worker's trace hands the same `r0u` to
`append_receipt`. -/
theorem c7_sync_worker_agree_witness :
    (syncParseTail okOCR okSheets raw0 url0 none).1 =
      Response.success "Receipt processed and uploaded successfully." r0u ∧
    Ev.appendCall r0u ∈ (workerParseTail okOCR okSheets raw0 url0 none).2 :=
  ⟨by decide,
   (c7_sync_worker_agree okOCR okSheets raw0 url0 none).2.2 r0u (by decide)⟩

/-- Claim C10 (confirmed): the `Items` cell of the appended row renders
exactly those line items whose description is non-empty and whose quantity
and unit price are present (not `None`) and non-zero, in their original list
order, joined by `'; '`. -/
theorem c10_items_filter_spec (fq fp : Option ℚ → Str) (items : List LineItem) :
    items_str fq fp items =
      joinSemi ((items.filter (fun it => decide (it.description ≠ [] ∧
        it.quantity ≠ none ∧ it.quantity ≠ some 0 ∧
        it.unit_price ≠ none ∧ it.unit_price ≠ some 0))).map (itemEntry fq fp)) := by
  simp only [items_str]
  rw [List.filter_congr fun it _ => includedItem_iff it]
